import Mathlib

/-!
Verification development for the WaveFlow audio-processing micro-service.

The development shallowly embeds the parts of the service that the
specification talks about:

* the waveform peak extraction of `app/audio_processor.py`
  (`AudioProcessor.generate_waveform_peaks`), modelled over exact
  rationals `ℚ` in place of IEEE floats — every concrete input used in a
  theorem below only involves amplitudes `0` and `1`, on which float and
  rational arithmetic agree exactly;
* the SQS message handler of `app/simple_handler.py`
  (`SimpleSQSHandler.handle_message` / `run` / `execute_task`), with the
  Python `json.loads` results supplied as explicit `Json` values and the
  effectful task bodies supplied as an outcome-valued oracle;
* the retry policy of `app/tasks.py` (the `except` blocks of
  `generate_hash_and_webhook` and friends) together with the Celery
  re-invocation semantics (`self.retry` re-runs the task with
  `request.retries + 1`);
* the webhook delivery layer of `app/webhook.py` and its call sites in
  `app/tasks.py`;
* the temp-file sweep of `app/tasks.py` (`cleanup_temp_files`).
-/

namespace WaveFlow

/-! ## Waveform engine: `AudioProcessor.generate_waveform_peaks`
(`app/audio_processor.py`, lines 239-306)

The Python code works on a numpy vector of mono samples.  We embed the
mono sample sequence as `List ℚ`.  `np.max` over a slice is embedded as
`listMax0`, a fold of `max` started at `0`: every slice the code takes the
maximum of is a slice of absolute amplitudes, whose entries are all
nonnegative, so for the (always nonempty) slices the code evaluates,
`listMax0` agrees with `np.max`.  `np.round(x, 4)` is embedded as
`round4`; it differs from numpy only on exact-tie arguments
(numpy rounds half to even), which no theorem below depends on. -/

/-- Maximum of a list of rationals, with `0` for the empty list.  Agrees
with `np.max` on nonempty lists of nonnegative entries, which is the only
way `generate_waveform_peaks` uses `np.max`. -/
def listMax0 (l : List ℚ) : ℚ := l.foldl max 0

/-- Embedding of `audio_abs = np.abs(audio_mono)` (audio_processor.py line 264). -/
def absSamples (audio : List ℚ) : List ℚ := audio.map (fun x => |x|)

/-- Embedding of `np.round(x, 4)` (audio_processor.py line 301) over `ℚ`. -/
def round4 (x : ℚ) : ℚ := (round (x * 10000) : ℤ) / 10000

/-- The pre-normalization `peaks` variable of `generate_waveform_peaks`
(audio_processor.py lines 266-289).

With `S` samples and `numPeaks` requested peaks, the code sets
`samples_per_peak = S // numPeaks`.  If that is `0` (short audio) it takes
the raw absolute amplitudes and pads with `0.0` up to `numPeaks` entries
(the `while`/truncate loop of lines 272-276 equals appending zeros and
taking the first `numPeaks`).  Otherwise peak `i` is the maximum of the
slice `audio_abs[i*spp : i*spp + spp]` clamped to the list length
(lines 280-289).  Python raises `ZeroDivisionError` for `numPeaks = 0`;
the embedding is total and every theorem assumes `1 ≤ numPeaks`. -/
def rawPeaks (audio : List ℚ) (numPeaks : Nat) : List ℚ :=
  let audioAbs := absSamples audio
  let spp := audioAbs.length / numPeaks
  if spp = 0 then
    (audioAbs ++ List.replicate numPeaks 0).take numPeaks
  else
    (List.range numPeaks).map fun i =>
      let start := i * spp
      let stop := min (start + spp) audioAbs.length
      listMax0 ((audioAbs.drop start).take (stop - start))

/-- Normalization step of `generate_waveform_peaks`
(audio_processor.py lines 291-298): divide by the global maximum peak
unless that maximum is `0`. -/
def normalizePeaks (peaks : List ℚ) : List ℚ :=
  let maxPeak := listMax0 peaks
  if 0 < maxPeak then peaks.map (fun p => p / maxPeak) else peaks

/-- Embedding of `AudioProcessor.generate_waveform_peaks`
(audio_processor.py lines 239-306): extract raw window peaks, normalize,
round every entry to 4 decimal digits. -/
def generate_waveform_peaks (audio : List ℚ) (numPeaks : Nat) : List ℚ :=
  (normalizePeaks (rawPeaks audio numPeaks)).map round4

/-- The last-window peak as section 4.1 of the spec describes it: the
maximum absolute amplitude from index `(numPeaks-1) * (S / numPeaks)`
through the end of the sample sequence (remainder samples assigned to the
last window).  Stated from the spec's words, for comparison with
`rawPeaks`. -/
def specLastWindowPeak (audio : List ℚ) (numPeaks : Nat) : ℚ :=
  listMax0 ((absSamples audio).drop ((numPeaks - 1) * ((absSamples audio).length / numPeaks)))

/-! ### Helper lemmas about `listMax0` -/

theorem le_foldl_max (l : List ℚ) (b : ℚ) : b ≤ l.foldl max b := by
  induction l generalizing b with
  | nil => exact le_refl b
  | cons a t ih => exact le_trans (le_max_left b a) (ih (max b a))

theorem mem_le_foldl_max (l : List ℚ) (b x : ℚ) (hx : x ∈ l) : x ≤ l.foldl max b := by
  induction l generalizing b with
  | nil => cases hx
  | cons a t ih =>
    rcases List.mem_cons.mp hx with h | h
    · subst h
      exact le_trans (le_max_right b x) (le_foldl_max t (max b x))
    · exact ih (max b a) h

theorem foldl_max_le (l : List ℚ) (b c : ℚ) (hb : b ≤ c) (hl : ∀ x ∈ l, x ≤ c) :
    l.foldl max b ≤ c := by
  induction l generalizing b with
  | nil => exact hb
  | cons a t ih =>
    exact ih (max b a) (max_le hb (hl a (List.mem_cons_self a t)))
      (fun x hx => hl x (List.mem_cons_of_mem a hx))

theorem foldl_max_eq_or_mem (l : List ℚ) (b : ℚ) :
    l.foldl max b = b ∨ l.foldl max b ∈ l := by
  induction l generalizing b with
  | nil => exact Or.inl rfl
  | cons a t ih =>
    rcases ih (max b a) with h | h
    · rcases max_cases b a with ⟨he, _⟩ | ⟨he, _⟩
      · exact Or.inl (by rw [List.foldl_cons, h, he])
      · exact Or.inr (by rw [List.foldl_cons, h, he]; exact List.mem_cons_self a t)
    · exact Or.inr (List.mem_cons_of_mem a h)

theorem listMax0_nonneg (l : List ℚ) : 0 ≤ listMax0 l :=
  le_foldl_max l 0

theorem listMax0_eq_zero_or_mem (l : List ℚ) : listMax0 l = 0 ∨ listMax0 l ∈ l :=
  foldl_max_eq_or_mem l 0

theorem listMax0_eq_one (l : List ℚ) (h1 : (1 : ℚ) ∈ l) (hle : ∀ x ∈ l, x ≤ 1) :
    listMax0 l = 1 :=
  le_antisymm (foldl_max_le l 0 1 (by norm_num) hle) (mem_le_foldl_max l 0 1 h1)

/-! ### Lengths: every branch of `generate_waveform_peaks` emits exactly
`numPeaks` entries. -/

theorem rawPeaks_length (audio : List ℚ) (numPeaks : Nat) :
    (rawPeaks audio numPeaks).length = numPeaks := by
  unfold rawPeaks
  by_cases h : (absSamples audio).length / numPeaks = 0
  · simp [h]
  · simp [h]

theorem normalizePeaks_length (peaks : List ℚ) :
    (normalizePeaks peaks).length = peaks.length := by
  unfold normalizePeaks
  by_cases h : 0 < listMax0 peaks
  · simp [h]
  · simp [h]

/-! ### Windowing lemmas for the `samples_per_peak > 0` branch -/

theorem rawPeaks_windowed (audio : List ℚ) (numPeaks : Nat) (h1 : 1 ≤ numPeaks)
    (h2 : numPeaks ≤ audio.length) :
    rawPeaks audio numPeaks =
      (List.range numPeaks).map (fun i =>
        listMax0 (((absSamples audio).drop (i * (audio.length / numPeaks))).take
          (audio.length / numPeaks))) := by
  have hlen : (absSamples audio).length = audio.length := by simp [absSamples]
  have h0 : 0 < numPeaks := h1
  have hspp : 1 ≤ audio.length / numPeaks := (Nat.one_le_div_iff h0).mpr h2
  simp only [rawPeaks, hlen]
  rw [if_neg (by omega)]
  refine List.map_congr_left (fun i hi => ?_)
  have hi' : i < numPeaks := List.mem_range.mp hi
  have hmul : (audio.length / numPeaks) * numPeaks ≤ audio.length :=
    Nat.div_mul_le_self audio.length numPeaks
  have hb : i * (audio.length / numPeaks) + audio.length / numPeaks ≤ audio.length := by
    have : (i + 1) * (audio.length / numPeaks) ≤ numPeaks * (audio.length / numPeaks) :=
      Nat.mul_le_mul_right _ hi'
    calc i * (audio.length / numPeaks) + audio.length / numPeaks
        = (i + 1) * (audio.length / numPeaks) := by ring
      _ ≤ numPeaks * (audio.length / numPeaks) := this
      _ = (audio.length / numPeaks) * numPeaks := Nat.mul_comm ..
      _ ≤ audio.length := hmul
  rw [min_eq_left hb, Nat.add_sub_cancel_left]

theorem rawPeaks_drops_tail (audio : List ℚ) (numPeaks : Nat) (h1 : 1 ≤ numPeaks)
    (h2 : numPeaks ≤ audio.length) :
    rawPeaks audio numPeaks =
      rawPeaks (audio.take (numPeaks * (audio.length / numPeaks))) numPeaks := by
  have h0 : 0 < numPeaks := h1
  have hspp : 1 ≤ audio.length / numPeaks := (Nat.one_le_div_iff h0).mpr h2
  have hmle : numPeaks * (audio.length / numPeaks) ≤ audio.length := by
    calc numPeaks * (audio.length / numPeaks)
        = (audio.length / numPeaks) * numPeaks := Nat.mul_comm ..
      _ ≤ audio.length := Nat.div_mul_le_self audio.length numPeaks
  have hlen2 : (audio.take (numPeaks * (audio.length / numPeaks))).length
      = numPeaks * (audio.length / numPeaks) := by
    rw [List.length_take]; exact min_eq_left hmle
  have h2' : numPeaks ≤ (audio.take (numPeaks * (audio.length / numPeaks))).length := by
    rw [hlen2]
    calc numPeaks = numPeaks * 1 := (Nat.mul_one numPeaks).symm
      _ ≤ numPeaks * (audio.length / numPeaks) := Nat.mul_le_mul_left numPeaks hspp
  have hdiv : (audio.take (numPeaks * (audio.length / numPeaks))).length / numPeaks
      = audio.length / numPeaks := by
    rw [hlen2, Nat.mul_div_cancel_left _ h0]
  rw [rawPeaks_windowed audio numPeaks h1 h2,
    rawPeaks_windowed (audio.take (numPeaks * (audio.length / numPeaks))) numPeaks h1 h2']
  refine List.map_congr_left (fun i hi => ?_)
  have hi' : i < numPeaks := List.mem_range.mp hi
  rw [hdiv]
  have habs : absSamples (audio.take (numPeaks * (audio.length / numPeaks)))
      = (absSamples audio).take (numPeaks * (audio.length / numPeaks)) := by
    simp [absSamples, List.map_take]
  rw [habs, List.drop_take, List.take_take]
  have hib : i * (audio.length / numPeaks) + audio.length / numPeaks
      ≤ numPeaks * (audio.length / numPeaks) := by
    have : (i + 1) * (audio.length / numPeaks) ≤ numPeaks * (audio.length / numPeaks) :=
      Nat.mul_le_mul_right _ hi'
    calc i * (audio.length / numPeaks) + audio.length / numPeaks
        = (i + 1) * (audio.length / numPeaks) := by ring
      _ ≤ numPeaks * (audio.length / numPeaks) := this
  rw [min_eq_left (by omega)]

/-! ### Rounding helpers -/

theorem round4_one : round4 1 = 1 := by norm_num [round4]

theorem round4_le_one (x : ℚ) (hx : x ≤ 1) : round4 x ≤ 1 := by
  have h1 : round (x * 10000) ≤ round ((1 : ℚ) * 10000) := by
    rw [round_eq, round_eq]
    exact Int.floor_mono (by linarith)
  have h2 : round ((1 : ℚ) * 10000) = 10000 := by norm_num
  unfold round4
  rw [div_le_one (by norm_num)]
  exact_mod_cast h1.trans_eq h2

/-! ## Claim C5 -/

/-- C5 (confirmed): for every decoded audio input and every requested peak
count `numPeaks ≥ 1`, `generate_waveform_peaks` returns exactly `numPeaks`
peaks — both when the sample count is smaller than `numPeaks`
(zero-padding branch) and when it is not evenly divisible by `numPeaks`
(windowing branch). -/
theorem generate_waveform_peaks_length_eq (audio : List ℚ) (numPeaks : Nat)
    (h : 1 ≤ numPeaks) :
    (generate_waveform_peaks audio numPeaks).length = numPeaks := by
  unfold generate_waveform_peaks
  rw [List.length_map, normalizePeaks_length, rawPeaks_length]

/-- Witness for C5: concrete instances of both the padding case (1 sample,
3 peaks requested) and the remainder case (4 samples, 3 peaks). -/
theorem generate_waveform_peaks_length_eq_witness :
    1 ≤ 3 ∧ (generate_waveform_peaks [2/3] 3).length = 3 ∧
      (generate_waveform_peaks [2/3, 1/2, 1/3, 1/4] 3).length = 3 :=
  ⟨by norm_num, generate_waveform_peaks_length_eq _ 3 (by norm_num),
    generate_waveform_peaks_length_eq _ 3 (by norm_num)⟩

/-! ## Claim C6 -/

/-- Counterexample to C6 as stated.  For the 5 mono samples
`[0, 0, 0, 0, 1]` with `numPeaks = 2` (so `5 % 2 ≠ 0`), the claim says the
last peak is the maximum absolute amplitude from index
`(2-1) * (5 / 2) = 2` through the end, which is `1`
(`specLastWindowPeak`).  The code's last window is
`audio_abs[2 : 4]`, which misses the final sample: the last extracted peak
is `0`, and the trailing `5 % 2 = 1` sample participates in no window. -/
theorem rawPeaks_last_window_cex :
    1 ≤ 2 ∧ 2 ≤ ([(0 : ℚ), 0, 0, 0, 1]).length ∧
      ([(0 : ℚ), 0, 0, 0, 1]).length % 2 ≠ 0 ∧
      (rawPeaks [0, 0, 0, 0, 1] 2).getLast? = some 0 ∧
      specLastWindowPeak [0, 0, 0, 0, 1] 2 = 1 ∧
      (rawPeaks [0, 0, 0, 0, 1] 2).getLast? ≠
        some (specLastWindowPeak [0, 0, 0, 0, 1] 2) := by
  refine ⟨by norm_num, by norm_num, by norm_num, ?_, ?_, ?_⟩ <;>
    norm_num [rawPeaks, specLastWindowPeak, absSamples, listMax0, List.range_succ, max_def]

/-- C6 (amended): when `numPeaks ≤ S`, every window — the last one
included — has exactly `S / numPeaks` samples, window `i` covering indices
`[i * (S / numPeaks), (i+1) * (S / numPeaks))`; consequently the trailing
`S mod numPeaks` samples participate in no window (the peaks only depend on
the first `numPeaks * (S / numPeaks)` samples), and the last peak is the
maximum of the last full-size window, not of the remainder-extended window
the original claim describes. -/
theorem rawPeaks_windows_amended (audio : List ℚ) (numPeaks : Nat) (h1 : 1 ≤ numPeaks)
    (h2 : numPeaks ≤ audio.length) :
    rawPeaks audio numPeaks =
      (List.range numPeaks).map (fun i =>
        listMax0 (((absSamples audio).drop (i * (audio.length / numPeaks))).take
          (audio.length / numPeaks))) ∧
    rawPeaks audio numPeaks =
      rawPeaks (audio.take (numPeaks * (audio.length / numPeaks))) numPeaks ∧
    (rawPeaks audio numPeaks).getLast? =
      some (listMax0 (((absSamples audio).drop
        ((numPeaks - 1) * (audio.length / numPeaks))).take (audio.length / numPeaks))) := by
  refine ⟨rawPeaks_windowed audio numPeaks h1 h2,
    rawPeaks_drops_tail audio numPeaks h1 h2, ?_⟩
  rw [rawPeaks_windowed audio numPeaks h1 h2, List.getLast?_map]
  obtain ⟨k, rfl⟩ : ∃ k, numPeaks = k + 1 := ⟨numPeaks - 1, by omega⟩
  simp [List.range_succ]

/-- Witness for C6 (amended): the five-sample input evaluated through the
amended statement. -/
theorem rawPeaks_windows_amended_witness :
    1 ≤ 2 ∧ 2 ≤ ([(0 : ℚ), 0, 0, 0, 1]).length ∧
      (rawPeaks [0, 0, 0, 0, 1] 2).getLast? =
        some (listMax0 (((absSamples [(0 : ℚ), 0, 0, 0, 1]).drop
          ((2 - 1) * (([(0 : ℚ), 0, 0, 0, 1]).length / 2))).take
          (([(0 : ℚ), 0, 0, 0, 1]).length / 2))) :=
  ⟨by norm_num, by norm_num,
    (rawPeaks_windows_amended [0, 0, 0, 0, 1] 2 (by norm_num) (by norm_num)).2.2⟩

/-! ## Claim C10 -/

/-- Counterexample to C10 as stated.  The input `[0, 0, 1]` contains a
nonzero sample, but with `numPeaks = 2` the two windows cover only indices
`0` and `1`; the extracted peaks are all `0`, the silence branch of the
normalization is taken, and the maximum returned peak is `0`, not `1`. -/
theorem peaks_max_not_always_one_cex :
    (1 : ℚ) ∈ [(0 : ℚ), 0, 1] ∧ (1 : ℚ) ≠ 0 ∧
      generate_waveform_peaks [0, 0, 1] 2 = [0, 0] ∧
      listMax0 (generate_waveform_peaks [0, 0, 1] 2) ≠ 1 := by
  refine ⟨by norm_num, by norm_num, ?_, ?_⟩ <;>
    norm_num [generate_waveform_peaks, normalizePeaks, rawPeaks, absSamples,
      listMax0, round4, List.range_succ, max_def]

/-- C10 (amended): whenever the pre-normalization global maximum peak is
positive — i.e. some sample that actually lands in a window is nonzero —
the maximum of the returned peaks is exactly `1`: some window attains the
global maximum, normalization maps it to `1`, every other normalized peak
is at most `1`, and rounding to 4 decimal digits fixes `1`.  (The original
claim's premise "some sample is nonzero" is not enough: a nonzero sample
confined to the dropped remainder window yields all-zero peaks, see the
counterexample.) -/
theorem peaks_max_one_of_windowed_nonzero (audio : List ℚ) (numPeaks : Nat)
    (hpos : 0 < listMax0 (rawPeaks audio numPeaks)) :
    listMax0 (generate_waveform_peaks audio numPeaks) = 1 := by
  have hmem : listMax0 (rawPeaks audio numPeaks) ∈ rawPeaks audio numPeaks := by
    rcases listMax0_eq_zero_or_mem (rawPeaks audio numPeaks) with h | h
    · rw [h] at hpos
      exact absurd hpos (lt_irrefl 0)
    · exact h
  have hle : ∀ x ∈ rawPeaks audio numPeaks, x ≤ listMax0 (rawPeaks audio numPeaks) :=
    fun x hx => mem_le_foldl_max (rawPeaks audio numPeaks) 0 x hx
  simp only [generate_waveform_peaks, normalizePeaks]
  rw [if_pos hpos, List.map_map]
  refine listMax0_eq_one _ ?_ ?_
  · refine List.mem_map.mpr ⟨listMax0 (rawPeaks audio numPeaks), hmem, ?_⟩
    simp only [Function.comp_apply]
    rw [div_self (ne_of_gt hpos), round4_one]
  · intro y hy
    obtain ⟨x, hx, rfl⟩ := List.mem_map.mp hy
    simp only [Function.comp_apply]
    exact round4_le_one _ ((div_le_one hpos).mpr (hle x hx))

/-- Witness for C10 (amended): samples `[0, 1]` with 2 requested peaks put
the nonzero sample inside a window; the returned maximum is exactly `1`. -/
theorem peaks_max_one_of_windowed_nonzero_witness :
    0 < listMax0 (rawPeaks [0, 1] 2) ∧
      listMax0 (generate_waveform_peaks [0, 1] 2) = 1 :=
  ⟨by norm_num [rawPeaks, absSamples, listMax0, List.range_succ, max_def],
    peaks_max_one_of_windowed_nonzero [0, 1] 2
      (by norm_num [rawPeaks, absSamples, listMax0, List.range_succ, max_def])⟩

/-! ## Retry policy
(`app/tasks.py`, the `except` blocks at lines 138-149, 227-238, 351-362,
549-560, and `app/config.py` line 42)

Every task's `except` block performs the same decision: with the current
Celery retry counter `retries`, a failing attempt calls
`self.retry(countdown = min(60 * 2 ** retries, 300))` when
`retries < max_retries` and re-raises (terminating the invocation)
otherwise.  Celery re-executes a retried task with `retries + 1`;
`max_retries` defaults to `MAX_RETRIES = 3` (config.py line 42). -/

/-- Default retry budget, `config.py` line 42 (`MAX_RETRIES`, default 3). -/
def MAX_RETRIES : Nat := 3

/-- Embedding of the backoff computation
`countdown = min(60 * (2 ** self.request.retries), 300)`
(tasks.py line 145, identically at 234, 358, 556). -/
def retryCountdown (retries : Nat) : Nat := min (60 * 2 ^ retries) 300

/-- The backoff formula in the words of the spec:
`min(baseDelay * 2^k, capDelay)` (spec sections 4.3 and 8). -/
def backoffSpec (baseDelay capDelay k : Nat) : Nat := min (baseDelay * 2 ^ k) capDelay

/-- Terminal-or-retry classification of one task invocation attempt
(spec section 4.3 state machine). -/
inductive ExecState where
  | succeeded
  | retryScheduled (countdown : Nat)
  | exhausted
deriving DecidableEq, Repr

/-- Outcome classification of a failing attempt, as the `except` block of
every task performs it (tasks.py lines 142-149): schedule a retry with the
exponential backoff while `retries < maxRetries`, otherwise re-raise,
which terminates the invocation as exhausted. -/
def failureTransition (retries maxRetries : Nat) : ExecState :=
  if retries < maxRetries then .retryScheduled (retryCountdown retries) else .exhausted

/-- What one execution of the handler body does at a given retry count. -/
inductive AttemptOutcome where
  | success
  | failure
deriving DecidableEq, Repr

/-- Drives one invocation from retry count `retries` to a terminal state,
following tasks.py lines 138-149 plus the Celery re-invocation semantics
(a retried task runs again with `retries + 1`).  The structural fuel
`left` stands for `maxRetries - retries`, so `left = 0` exactly when
`retries < maxRetries` fails.  Returns the terminal state and the number
of handler executions performed. -/
def driveAux (handler : Nat → AttemptOutcome) (retries left : Nat) : ExecState × Nat :=
  match handler retries with
  | .success => (.succeeded, 1)
  | .failure =>
    match left with
    | 0 => (.exhausted, 1)
    | l + 1 =>
      let r := driveAux handler (retries + 1) l
      (r.1, r.2 + 1)

/-- A whole invocation: first execution at retry count `0` with the full
retry budget. -/
def driveInvocation (handler : Nat → AttemptOutcome) (maxRetries : Nat) : ExecState × Nat :=
  driveAux handler 0 maxRetries

/-! ## Claim C3 -/

/-- C3 (confirmed): an invocation whose handler fails on every attempt is
retried exactly `maxRetries` times and terminates as exhausted, with the
handler executed `maxRetries + 1` times in total; with the default budget
`MAX_RETRIES` this is 4 executions. -/
theorem always_failing_task_exhausted (handler : Nat → AttemptOutcome)
    (hfail : ∀ k, handler k = .failure) :
    (∀ maxRetries, driveInvocation handler maxRetries = (.exhausted, maxRetries + 1)) ∧
      driveInvocation handler MAX_RETRIES = (.exhausted, MAX_RETRIES + 1) ∧
      MAX_RETRIES = 3 := by
  have aux : ∀ left r, driveAux handler r left = (.exhausted, left + 1) := by
    intro left
    induction left with
    | zero => intro r; simp [driveAux, hfail r]
    | succ l ih => intro r; simp [driveAux, hfail r, ih (r + 1)]
  exact ⟨fun M => aux M 0, aux MAX_RETRIES 0, rfl⟩

/-- Witness for C3: the everywhere-failing handler, driven with the
default retry budget, is exhausted after exactly 4 executions. -/
theorem always_failing_task_exhausted_witness :
    (∀ k, (fun _ : Nat => AttemptOutcome.failure) k = .failure) ∧
      driveInvocation (fun _ => .failure) MAX_RETRIES = (.exhausted, MAX_RETRIES + 1) :=
  ⟨fun _ => rfl,
    (always_failing_task_exhausted (fun _ => .failure) (fun _ => rfl)).2.1⟩

/-! ## Claim C4 -/

/-- C4 (confirmed): the backoff scheduled for a failing attempt at
0-indexed retry count `k` is exactly the spec's
`min(baseDelay * 2^k, capDelay)` with `baseDelay = 60` and
`capDelay = 300`; attempts 0, 1, 2, 3 get delays 60, 120, 240, 300
seconds, and this is the countdown `failureTransition` schedules whenever
`k` is within the default retry budget. -/
theorem retry_backoff_eq_spec :
    (∀ k, retryCountdown k = backoffSpec 60 300 k) ∧
      retryCountdown 0 = 60 ∧ retryCountdown 1 = 120 ∧
      retryCountdown 2 = 240 ∧ retryCountdown 3 = 300 ∧
      (∀ k, failureTransition k MAX_RETRIES =
        if k < MAX_RETRIES then .retryScheduled (backoffSpec 60 300 k)
        else .exhausted) :=
  ⟨fun _ => rfl, by decide, by decide, by decide, by decide, fun _ => rfl⟩

/-! ## Message decoding and dispatch
(`app/simple_handler.py`, `SimpleSQSHandler`)

The handler receives an SQS message body as text, parses it with
`json.loads`, normalizes the two recognized envelope shapes, and runs the
matching task function synchronously.  The embedding keeps the Python
control flow, including the exceptions the interpreter itself raises on
ill-typed operations (`TypeError` from `'headers' in None`,
`AttributeError` from `[].get`, `KeyError`/`IndexError` from indexing):
every such exception is an `Except.error` and is caught by the outer
`try` of `handle_message` (lines 71/130-132), which then returns `False`.

The results of `json.loads` are supplied as explicit `Json` values
(`parsed` is `none` when `json.loads` raises `JSONDecodeError`, and
`innerParse` gives the results of the nested `json.loads(body['body'])`);
the task function bodies, whose behaviour depends on S3 and the network,
are supplied as an oracle returning an `ExecOutcome`. -/

/-- JSON values as Python `json.loads` produces them.  Numbers are
restricted to integers, which is enough for every shape the handler
distinguishes.  An `obj` models a Python dict: distinct keys in insertion
order. -/
inductive Json where
  | null
  | bool (b : Bool)
  | num (n : Int)
  | str (s : String)
  | arr (elems : List Json)
  | obj (fields : List (String × Json))

/-- Embedding of Python `str.strip()` restricted to ASCII whitespace
(space, tab, CR, LF), which covers every message body considered here. -/
def pyStrip (s : String) : String :=
  String.mk (((s.data.dropWhile Char.isWhitespace).reverse.dropWhile Char.isWhitespace).reverse)

/-- Substring test on character lists: some suffix of `hay` starts with
`pat`. -/
def charsContain (hay pat : List Char) : Bool :=
  (List.range (hay.length + 1)).any (fun i => pat.isPrefixOf (hay.drop i))

/-- Python `pat in hay` for strings (substring containment). -/
def strContains (hay pat : String) : Bool := charsContain hay.data pat.data

/-- Python `key in value`: key membership for a dict, element equality
for a list, substring test for a string, `TypeError` otherwise
(in particular for `None`, booleans and numbers). -/
def pyContains (v : Json) (key : String) : Except Unit Bool :=
  match v with
  | .obj fields => .ok (fields.any (fun kv => kv.1 == key))
  | .arr elems => .ok (elems.any (fun e => match e with | .str s => s == key | _ => false))
  | .str s => .ok (strContains s key)
  | _ => .error ()

/-- Python `value.get(key, dflt)`: `AttributeError` unless `value` is a
dict. -/
def pyGet (v : Json) (key : String) (dflt : Json) : Except Unit Json :=
  match v with
  | .obj fields => .ok ((List.lookup key fields).getD dflt)
  | _ => .error ()

/-- Python `value[key]` for a string key: dict lookup raising `KeyError`
when absent, `TypeError` on every non-dict. -/
def pyIndexStr (v : Json) (key : String) : Except Unit Json :=
  match v with
  | .obj fields =>
    match List.lookup key fields with
    | some x => .ok x
    | none => .error ()
  | _ => .error ()

/-- Python `len(value)`: `TypeError` for `None`, booleans and numbers. -/
def pyLen (v : Json) : Except Unit Nat :=
  match v with
  | .arr xs => .ok xs.length
  | .str s => .ok s.length
  | .obj fs => .ok fs.length
  | _ => .error ()

/-- Python `value[i]` for a nonnegative integer literal: list indexing,
single-character string indexing, `KeyError`/`TypeError` otherwise. -/
def pyIndexNat (v : Json) (i : Nat) : Except Unit Json :=
  match v with
  | .arr xs =>
    match xs.get? i with
    | some x => .ok x
    | none => .error ()
  | .str s =>
    match s.data.get? i with
    | some c => .ok (.str (String.mk [c]))
    | none => .error ()
  | _ => .error ()

/-- The default task of the direct envelope shape
(simple_handler.py line 113). -/
def defaultTaskName : String := "app.tasks.generate_hash_and_webhook"

/-- The task names `execute_task` recognizes
(simple_handler.py lines 141-149). -/
def knownTaskNames : List String :=
  ["app.tasks.generate_hash_and_webhook", "app.tasks.process_duplicate_file",
    "app.tasks.process_audio_analysis"]

/-- Keyword parameters accepted by each recognized task function
(tasks.py lines 38-41, 164-166, 242-246); `f(**kwargs)` raises
`TypeError` before entering the body when `kwargs` holds any other key. -/
def taskParams (name : String) : List String :=
  if name == "app.tasks.generate_hash_and_webhook" then
    ["userId", "trackId", "stemId", "stageId", "filepath", "timestamp", "original_filename"]
  else if name == "app.tasks.process_duplicate_file" then
    ["userId", "trackId", "stemId", "filepath", "audio_hash"]
  else if name == "app.tasks.process_audio_analysis" then
    ["userId", "trackId", "stemId", "filepath", "audio_hash", "timestamp",
      "original_filename", "num_peaks", "upstreamId"]
  else []

/-- Which of the recognized task names (if any) a decoded `task` value
selects; the Python `==` comparisons at lines 141/144/147 succeed only on
equal strings. -/
def matchKnownTask (taskName : Json) : Option String :=
  match taskName with
  | .str s => if knownTaskNames.contains s then some s else none
  | _ => none

/-- Observable behaviour of one synchronous execution of a task function
body: it returns a value of the given Python truthiness, or raises. -/
inductive ExecOutcome where
  | returns (truthy : Bool)
  | raises

/-- Behaviour of a directly invoked task function whose execution ends in
the given executor state (tasks.py lines 123-149): a succeeded attempt
returns its (truthy) result dict; a retry-scheduled attempt raises
(`self.retry` raises when the task was called directly rather than by a
worker); an exhausted attempt re-raises the original error (line 149). -/
def outcomeOfState (s : ExecState) : ExecOutcome :=
  match s with
  | .succeeded => .returns true
  | .retryScheduled _ => .raises
  | .exhausted => .raises

/-- Embedding of `SimpleSQSHandler.execute_task`
(simple_handler.py lines 134-156).  First component: the task function
body that was actually entered, with its kwargs (`none` when no task body
ran).  Second component: `.ok (some t)` — a recognized task ran and
returned a value of truthiness `t`; `.ok none` — unrecognized task name,
`execute_task` returns `None` (line 152); `.error` — an exception
propagated to the caller (line 156), either from the task body or from
the call `f(**kwargs)` itself when `kwargs` is not a dict of accepted
parameter names. -/
def execute_task (taskName kwargs : Json) (runTask : String → Json → ExecOutcome) :
    Option (String × Json) × Except Unit (Option Bool) :=
  match matchKnownTask taskName with
  | some name =>
    match kwargs with
    | .obj fields =>
      if fields.all (fun kv => (taskParams name).contains kv.1) then
        match runTask name (.obj fields) with
        | .returns t => (some (name, .obj fields), .ok (some t))
        | .raises => (some (name, .obj fields), .error ())
      else (none, .error ())
    | _ => (none, .error ())
  | none => (none, .ok none)

/-- Canonical task-call shape extracted from a parsed message body. -/
structure Decoded where
  taskName : Json
  args : Json
  kwargs : Json
  taskId : Json

/-- Direct (unwrapped) envelope normalization
(simple_handler.py lines 111-116): `task` defaults to
`defaultTaskName`, `args` to `[]`, `kwargs` to the ENTIRE parsed body,
`id` to `"unknown"`. -/
def decodeDirect (body : Json) : Except Unit Decoded := do
  let taskName ← pyGet body "task" (.str defaultTaskName)
  let args ← pyGet body "args" (.arr [])
  let kwargs ← pyGet body "kwargs" body
  let taskId ← pyGet body "id" (.str "unknown")
  return ⟨taskName, args, kwargs, taskId⟩

/-- Wrapped (Celery-standard) envelope normalization
(simple_handler.py lines 104-110): the `body` field, itself a JSON
string, is parsed again (`innerParse`); element 0 gives the positional
arguments and element 1 the keyword arguments. -/
def decodeWrapped (body : Json) (innerParse : String → Option Json) :
    Except Unit Decoded := do
  let hdrs ← pyIndexStr body "headers"
  let taskName ← pyIndexStr hdrs "task"
  let bodyField ← pyIndexStr body "body"
  let inner ←
    match bodyField with
    | .str s =>
      match innerParse s with
      | some j => Except.ok j
      | none => Except.error ()
    | _ => Except.error ()
  let len ← pyLen inner
  let args ← if 0 < len then pyIndexNat inner 0 else Except.ok (.arr [])
  let kwargs ← if 1 < len then pyIndexNat inner 1 else Except.ok (.obj [])
  let taskId ← pyIndexStr hdrs "id"
  return ⟨taskName, args, kwargs, taskId⟩

/-- Envelope-shape sniffing of `handle_message`
(simple_handler.py line 104): the wrapped decoder is chosen exactly when
`'headers' in body and 'task' in body.get('headers', \x7b\x7d)`. -/
def decodeEnvelope (body : Json) (innerParse : String → Option Json) :
    Except Unit Decoded :=
  match pyContains body "headers" with
  | .error _ => .error ()
  | .ok false => decodeDirect body
  | .ok true =>
    match pyGet body "headers" (.obj []) with
    | .error _ => .error ()
    | .ok hdrs =>
      match pyContains hdrs "task" with
      | .error _ => .error ()
      | .ok false => decodeDirect body
      | .ok true => decodeWrapped body innerParse

/-- Result of `handle_message`: the Boolean the method returns (the
consumer loop deletes the message exactly when it is `true`), plus which
recognized task body (if any) was entered along the way. -/
structure HandleResult where
  deleted : Bool
  dispatched : Option (String × Json)

/-- Embedding of `SimpleSQSHandler.handle_message`
(simple_handler.py lines 69-132).

Empty or whitespace-only bodies are accepted for deletion at line 82-84.
A `JSONDecodeError` (`parsed = none`) leads to deletion only when the
stripped body is `''`, `'\x7b\x7d'` or `'null'` (line 94) — a branch that
is unreachable for the latter two, which are valid JSON.  Otherwise the
parsed body is normalized and the matching task executed; any exception is
caught by the outer `try` (lines 130-132) and yields `False`. -/
def handle_message (bodyText : String) (parsed : Option Json)
    (innerParse : String → Option Json)
    (runTask : String → Json → ExecOutcome) : HandleResult :=
  if bodyText == "" || pyStrip bodyText == "" then ⟨true, none⟩
  else
    match parsed with
    | none =>
      if pyStrip bodyText == "" || pyStrip bodyText == "\x7b\x7d"
          || pyStrip bodyText == "null" then
        ⟨true, none⟩
      else ⟨false, none⟩
    | some body =>
      match decodeEnvelope body innerParse with
      | .error _ => ⟨false, none⟩
      | .ok d =>
        match execute_task d.taskName d.kwargs runTask with
        | (disp, .error _) => ⟨false, disp⟩
        | (disp, .ok none) => ⟨false, disp⟩
        | (disp, .ok (some t)) => ⟨t, disp⟩

/-- Per-message acknowledgment decision of `SimpleSQSHandler.run`
(simple_handler.py lines 44-60): the message is deleted from the queue
exactly when `handle_message` returned `True`. -/
def runDeletesMessage (bodyText : String) (parsed : Option Json)
    (innerParse : String → Option Json)
    (runTask : String → Json → ExecOutcome) : Bool :=
  (handle_message bodyText parsed innerParse runTask).deleted

/-- A nested parse oracle for messages that never reach the wrapped
branch. -/
def noInnerParse : String → Option Json := fun _ => none

/-- Task oracle for a task whose every execution raises. -/
def alwaysRaises : String → Json → ExecOutcome := fun _ _ => .raises

/-- Embedding of the normalization step of
`message_handler.handle_custom_message` (message_handler.py lines 29-35):
the task name defaults like the simple handler's, but the ENTIRE parsed
object is always used as the keyword-argument set — an explicit `kwargs`
key is not honoured on this path.  Returns (task name, kwargs, task id). -/
def handle_custom_message_normalize (data : Json) : Except Unit (Json × Json × Json) := do
  let taskName ← pyGet data "task" (.str defaultTaskName)
  let idDefault ← pyGet data "id" (.str "unknown")
  let taskId ← pyGet data "stemId" idDefault
  return (taskName, data, taskId)

/-! ## Claim C1 -/

/-- C1 (code bug): the claim — and the code's own dead guard at
simple_handler.py line 94 — expects the bodies `""`, `"\x7b\x7d"`,
`"null"`, `"[]"` to be classified as malformed and deleted without
dispatching any task.  Evaluating the embedded handler shows what the code
actually does on each of the four bodies (no exception ever escapes, since
the outer `try` catches everything, but that is the only part of the claim
that holds):

* body `""`: deleted without dispatch — as claimed;
* body `"\x7b\x7d"`: `json.loads` succeeds (the line-94 guard sits inside
  the `JSONDecodeError` handler and cannot fire), the default task
  `generate_hash_and_webhook` is entered with empty kwargs, it raises
  (`filepath` missing), and the message is NOT deleted;
* body `"null"`: `'headers' in None` raises `TypeError`, caught at
  line 130 — NOT deleted;
* body `"[]"`: `[].get` raises `AttributeError`, caught — NOT deleted. -/
theorem degenerate_bodies_eval :
    handle_message "" none noInnerParse alwaysRaises = ⟨true, none⟩ ∧
      handle_message "\x7b\x7d" (some (.obj [])) noInnerParse alwaysRaises =
        ⟨false, some ("app.tasks.generate_hash_and_webhook", .obj [])⟩ ∧
      handle_message "null" (some .null) noInnerParse alwaysRaises = ⟨false, none⟩ ∧
      handle_message "[]" (some (.arr [])) noInnerParse alwaysRaises = ⟨false, none⟩ :=
  ⟨rfl, rfl, rfl, rfl⟩

/-! ## Claim C2 -/

/-- Message body used for the C2 counterexample and witness: a direct
envelope carrying an explicit task, id and kwargs. -/
def exhaustedBody : Json :=
  .obj [("task", .str "app.tasks.process_duplicate_file"), ("id", .str "t1"),
    ("kwargs", .obj [("stemId", .str "s1"), ("filepath", .str "a.wav")])]

/-- The message text whose `json.loads` result is `exhaustedBody`. -/
def exhaustedBodyText : String :=
  "\x7b\"task\": \"app.tasks.process_duplicate_file\", \"id\": \"t1\", \"kwargs\": \x7b\"stemId\": \"s1\", \"filepath\": \"a.wav\"\x7d\x7d"

/-- Counterexample to C2 as stated.  A message whose invocation terminates
as `Exhausted` (the task body raises after using up its retries,
tasks.py line 149) makes `handle_message` return `False`, so the consumer
loop does NOT delete it — the claim says a terminal `Exhausted` outcome
still deletes the message.  The task body was really entered (second
conjunct), so this is a genuine exhausted invocation, not a decode
failure. -/
theorem exhausted_message_not_deleted_cex :
    outcomeOfState .exhausted = .raises ∧
      (handle_message exhaustedBodyText (some exhaustedBody) noInnerParse
        (fun _ _ => outcomeOfState .exhausted)).dispatched =
          some ("app.tasks.process_duplicate_file",
            .obj [("stemId", .str "s1"), ("filepath", .str "a.wav")]) ∧
      runDeletesMessage exhaustedBodyText (some exhaustedBody) noInnerParse
        (fun _ _ => outcomeOfState .exhausted) = false :=
  ⟨rfl, rfl, rfl⟩

/-- C2 (amended): for every received message that decodes to a recognized
task called with acceptable keyword arguments, the consumer loop deletes
the message if and only if the invocation ends `Succeeded`; both
`RetryScheduled` and `Exhausted` endings leave the message in the queue
(the task function raises in either case when invoked synchronously, and
`handle_message` then reports `False`). -/
theorem delete_iff_invocation_succeeded (bodyText : String) (parsed : Option Json)
    (innerParse : String → Option Json) (body : Json) (d : Decoded)
    (name : String) (fields : List (String × Json))
    (hne : (bodyText == "" || pyStrip bodyText == "") = false)
    (hp : parsed = some body)
    (hd : decodeEnvelope body innerParse = .ok d)
    (hn : matchKnownTask d.taskName = some name)
    (hkw : d.kwargs = .obj fields)
    (hall : fields.all (fun kv => (taskParams name).contains kv.1) = true) :
    ∀ st : ExecState,
      runDeletesMessage bodyText parsed innerParse (fun _ _ => outcomeOfState st) = true ↔
        st = ExecState.succeeded := by
  intro st
  cases st <;>
    simp only [runDeletesMessage, handle_message, hne, hp, hd, execute_task, hn, hkw,
      outcomeOfState, Bool.false_eq_true, if_false] <;>
    rw [if_pos hall] <;>
    simp

/-- Witness for C2 (amended): the concrete direct message, with a
succeeding invocation, is deleted. -/
theorem delete_iff_invocation_succeeded_witness :
    decodeEnvelope exhaustedBody noInnerParse =
      .ok ⟨.str "app.tasks.process_duplicate_file", .arr [],
        .obj [("stemId", .str "s1"), ("filepath", .str "a.wav")], .str "t1"⟩ ∧
      (runDeletesMessage exhaustedBodyText (some exhaustedBody) noInnerParse
        (fun _ _ => outcomeOfState ExecState.succeeded) = true ↔
          ExecState.succeeded = ExecState.succeeded) :=
  ⟨rfl,
    delete_iff_invocation_succeeded exhaustedBodyText (some exhaustedBody) noInnerParse
      exhaustedBody _ "app.tasks.process_duplicate_file"
      [("stemId", .str "s1"), ("filepath", .str "a.wav")]
      rfl rfl rfl rfl rfl rfl ExecState.succeeded⟩

/-! ## Claim C7 -/

/-- Direct message with a `task` key but no `kwargs` key, used to refute
the "minus the task and id keys" part of C7. -/
def directNoKwargsBody : Json :=
  .obj [("task", .str "app.tasks.process_duplicate_file"), ("filepath", .str "a.wav")]

/-- The argument set C7 predicts for a direct message without a `kwargs`
key: the entire parsed object minus the `task` and `id` keys.  Stated from
the spec's words, for comparison with the code's decoder. -/
def specDirectArgs (body : Json) : Json :=
  match body with
  | .obj fields => .obj (fields.filter (fun kv => !(kv.1 == "task" || kv.1 == "id")))
  | _ => body

/-- Counterexample to C7 as stated.  For the direct message
`\x7b"task": "app.tasks.process_duplicate_file", "filepath": "a.wav"\x7d`
(no `kwargs` key), the code reuses the ENTIRE parsed object as the
argument set — the `task` key included (simple_handler.py line 115:
`body.get('kwargs', body)`), while the claim demands the object minus the
`task`/`id` keys. -/
theorem direct_args_keep_task_key_cex :
    decodeEnvelope directNoKwargsBody noInnerParse =
      .ok ⟨.str "app.tasks.process_duplicate_file", .arr [], directNoKwargsBody,
        .str "unknown"⟩ ∧
      specDirectArgs directNoKwargsBody = .obj [("filepath", .str "a.wav")] ∧
      directNoKwargsBody ≠ specDirectArgs directNoKwargsBody :=
  ⟨rfl, rfl, by simp [directNoKwargsBody, specDirectArgs]⟩

/-- C7 (amended): for every direct (unwrapped) JSON message object without
a `headers` key, decoding yields kind = `object.task` if present, else the
configured default kind; and args = `object.kwargs` if present, else the
ENTIRE parsed object unchanged — the `task` and `id` keys are NOT removed.
On the `message_handler.handle_custom_message` path the entire object is
used as the argument set unconditionally. -/
theorem direct_decode_amended (fields : List (String × Json))
    (innerParse : String → Option Json)
    (h : fields.any (fun kv => kv.1 == "headers") = false) :
    decodeEnvelope (.obj fields) innerParse =
      .ok ⟨(List.lookup "task" fields).getD (.str defaultTaskName),
        (List.lookup "args" fields).getD (.arr []),
        (List.lookup "kwargs" fields).getD (.obj fields),
        (List.lookup "id" fields).getD (.str "unknown")⟩ ∧
      (handle_custom_message_normalize (.obj fields)).map (fun r => r.2.1) =
        .ok (.obj fields) := by
  constructor
  · have hc : pyContains (.obj fields) "headers" = .ok false := by
      simp [pyContains, h]
    rw [decodeEnvelope, hc]
    rfl
  · rfl

/-- Witness for C7 (amended): the spec's own example message
`\x7b"userId": "u1", "filepath": "a.wav"\x7d` decodes to the default kind
with the whole object as the argument set. -/
theorem direct_decode_amended_witness :
    ([(("userId" : String), Json.str "u1"), ("filepath", Json.str "a.wav")].any
        (fun kv => kv.1 == "headers") = false) ∧
      decodeEnvelope (.obj [("userId", .str "u1"), ("filepath", .str "a.wav")]) noInnerParse =
        .ok ⟨(List.lookup "task" [(("userId" : String), Json.str "u1"), ("filepath", Json.str "a.wav")]).getD (.str defaultTaskName),
          (List.lookup "args" [(("userId" : String), Json.str "u1"), ("filepath", Json.str "a.wav")]).getD (.arr []),
          (List.lookup "kwargs" [(("userId" : String), Json.str "u1"), ("filepath", Json.str "a.wav")]).getD
            (.obj [("userId", .str "u1"), ("filepath", .str "a.wav")]),
          (List.lookup "id" [(("userId" : String), Json.str "u1"), ("filepath", Json.str "a.wav")]).getD (.str "unknown")⟩ :=
  ⟨rfl,
    (direct_decode_amended [("userId", .str "u1"), ("filepath", .str "a.wav")]
      noInnerParse rfl).1⟩

/-! ## Webhook delivery (`app/webhook.py` and its call sites in `app/tasks.py`)

Each `send_*` helper posts JSON to `WEBHOOK_URL/<suffix>` and calls
`response.raise_for_status()`.  The network interaction is abstracted by a
`PostOutcome`; what the embedding keeps is the error-propagation
structure: which helpers raise on a failed POST, and which task call
sites catch that error. -/

/-- Result of one `requests.post` exchange. -/
inductive PostOutcome where
  | ok2xx
  | non2xx
  | networkError
deriving DecidableEq, Repr

/-- Whether `requests.post(...)` followed by `raise_for_status()` raises:
it does on a network failure and on a non-2xx response. -/
def postRaises (p : PostOutcome) : Bool :=
  match p with
  | .ok2xx => false
  | .non2xx => true
  | .networkError => true

/-- Embedding of `send_hash_webhook` (webhook.py lines 9-44): silently
returns when no webhook URL is configured, otherwise re-raises any POST
failure (lines 42-44). -/
def send_hash_webhook (urlConfigured : Bool) (post : PostOutcome) : Except Unit Unit :=
  if !urlConfigured then .ok ()
  else if postRaises post then .error () else .ok ()

/-- Embedding of `send_completion_webhook` (webhook.py lines 46-80): same
structure as the hash webhook — it re-raises any POST failure
(lines 78-80). -/
def send_completion_webhook (urlConfigured : Bool) (post : PostOutcome) : Except Unit Unit :=
  if !urlConfigured then .ok ()
  else if postRaises post then .error () else .ok ()

/-- Embedding of `send_duplicate_delete_complete_webhook`
(webhook.py lines 116-149): also re-raises any POST failure; no task in
`tasks.py` ever calls it. -/
def send_duplicate_delete_complete_webhook (urlConfigured : Bool) (post : PostOutcome) :
    Except Unit Unit :=
  if !urlConfigured then .ok ()
  else if postRaises post then .error () else .ok ()

/-- Embedding of `send_file_processing_progress_webhook`
(webhook.py lines 151-189): the `except` clause logs and `pass`es
(lines 186-189), so a POST failure never escapes the helper. -/
def send_file_processing_progress_webhook (urlConfigured : Bool) (post : PostOutcome) :
    Except Unit Unit :=
  if !urlConfigured then .ok ()
  else if postRaises post then .ok () else .ok ()

/-- The hash-webhook step inside `generate_hash_and_webhook`
(tasks.py lines 114-121): `try: send_hash_webhook(...) except: raise` —
the failure is re-raised into the task's outer `except`, where it drives
the retry decision (`failureTransition`). -/
def hashWebhookStep (urlConfigured : Bool) (post : PostOutcome) : Except Unit Unit :=
  match send_hash_webhook urlConfigured post with
  | .ok u => .ok u
  | .error e => .error e

/-- The completion-webhook step inside `process_duplicate_file`
(tasks.py lines 217-222): the failure is caught and only logged as a
warning — it never reaches the task's outer `except`. -/
def duplicateCompletionWebhookStep (urlConfigured : Bool) (post : PostOutcome) :
    Except Unit Unit :=
  match send_completion_webhook urlConfigured post with
  | .ok _ => .ok ()
  | .error _ => .ok ()

/-- The completion-webhook step inside `process_audio_analysis`
(tasks.py lines 341-346): identical catch-and-log-warning. -/
def analysisCompletionWebhookStep (urlConfigured : Bool) (post : PostOutcome) :
    Except Unit Unit :=
  match send_completion_webhook urlConfigured post with
  | .ok _ => .ok ()
  | .error _ => .ok ()

/-! ## Claim C8 -/

/-- Counterexample to C8 as stated.  A non-2xx response to the completion
webhook makes `send_completion_webhook` itself raise, yet the calling task
(`process_audio_analysis`, likewise `process_duplicate_file`) swallows the
error: the step completes normally and the failure cannot affect the
task's retry outcome, contrary to the claim that completion-webhook
failure "is propagated as an error to the calling task". -/
theorem completion_webhook_failure_swallowed_cex :
    send_completion_webhook true .non2xx = .error () ∧
      analysisCompletionWebhookStep true .non2xx = .ok () ∧
      duplicateCompletionWebhookStep true .non2xx = .ok () :=
  ⟨rfl, rfl, rfl⟩

/-- C8 (amended): with a configured webhook URL, a non-2xx response or
network failure of the hash-check POST is propagated as an error into
`generate_hash_and_webhook` (affecting its retry outcome); the completion
webhook helper raises on failure too, but EVERY task call site
(`process_duplicate_file`, `process_audio_analysis`) catches and swallows
it, so completion failures never affect a retry outcome; the progress
helper swallows failures internally; the duplicate-delete helper would
raise but has no caller in `tasks.py`. -/
theorem webhook_failure_policy (urlConfigured : Bool) (post : PostOutcome) :
    hashWebhookStep urlConfigured post =
      (if urlConfigured && postRaises post then .error () else .ok ()) ∧
      analysisCompletionWebhookStep urlConfigured post = .ok () ∧
      duplicateCompletionWebhookStep urlConfigured post = .ok () ∧
      send_file_processing_progress_webhook urlConfigured post = .ok () ∧
      send_completion_webhook urlConfigured post =
        (if urlConfigured && postRaises post then .error () else .ok ()) := by
  cases urlConfigured <;> cases post <;>
    simp [hashWebhookStep, analysisCompletionWebhookStep, duplicateCompletionWebhookStep,
      send_hash_webhook, send_completion_webhook, send_file_processing_progress_webhook,
      postRaises]

/-! ## Temp-file cleanup (`app/tasks.py`, `cleanup_temp_files`, lines 634-674)

The task computes `cutoff_time = time.time() - 3600` (a hardcoded hour,
line 645), then for each of the four glob patterns
`/tmp/tmp*`, `/tmp/*audio*`, `/tmp/*waveform*`, `/tmp/*mixed*` deletes
every matching regular file whose mtime is older than the cutoff,
appending it to `cleaned_files`; the returned result carries
`len(cleaned_files)`.  A file deleted during an earlier pattern's pass is
gone from the directory when a later pattern is globbed.  A shell glob
whose pattern does not start with a dot never matches a name that starts
with a dot. -/

/-- A file in `/tmp`: its name within the directory, its mtime and
whether it is a regular file. -/
structure TempFile where
  name : String
  mtime : Int
  isFile : Bool

/-- Glob `tmp*`: the name starts with `tmp`. -/
def globTmpStar (name : String) : Bool := "tmp".data.isPrefixOf name.data

/-- Hidden-name test: a glob pattern starting with a wildcard skips names
that start with a dot. -/
def notHidden (name : String) : Bool :=
  match name.data with
  | [] => true
  | c :: _ => !(c == '.')

/-- Glob `*sub*`: the name contains `sub` and is not hidden. -/
def globStarSub (sub : String) (name : String) : Bool :=
  notHidden name && strContains name sub

/-- The four glob patterns of tasks.py lines 647-652, in sweep order. -/
def tempPatterns : List (String → Bool) :=
  [globTmpStar, globStarSub "audio", globStarSub "waveform", globStarSub "mixed"]

/-- Whether the sweep deletes a file it examines
(tasks.py line 659): a regular file whose mtime is before the cutoff. -/
def sweepDeletes (cutoff : Int) (pat : String → Bool) (f : TempFile) : Bool :=
  pat f.name && f.isFile && decide (f.mtime < cutoff)

/-- One pattern's pass over the temp directory: the matching old regular
files disappear and are counted. -/
def sweepPattern (cutoff : Int) (pat : String → Bool) (st : List TempFile × Nat) :
    List TempFile × Nat :=
  (st.1.filter (fun f => !sweepDeletes cutoff pat f),
    st.2 + (st.1.filter (fun f => sweepDeletes cutoff pat f)).length)

/-- Embedding of `cleanup_temp_files` (tasks.py lines 634-674): sweep the
four patterns in order with the fixed one-hour cutoff; returns the
remaining directory contents and `cleaned_files_count`. -/
def cleanup_temp_files (now : Int) (files : List TempFile) : List TempFile × Nat :=
  tempPatterns.foldl (fun st pat => sweepPattern (now - 3600) pat st) (files, 0)

/-- Union of the four patterns. -/
def cleanupMatches (name : String) : Bool :=
  globTmpStar name || globStarSub "audio" name || globStarSub "waveform" name ||
    globStarSub "mixed" name

/-- Whether `cleanup_temp_files` ultimately deletes a file: it matches
some pattern, is a regular file, and is older than the fixed one-hour
cutoff. -/
def cleanupDeletes (now : Int) (f : TempFile) : Bool :=
  cleanupMatches f.name && f.isFile && decide (f.mtime < now - 3600)

/-- A file examined by some pattern of the sweep list. -/
def anyDeletes (cutoff : Int) (ps : List (String → Bool)) (f : TempFile) : Bool :=
  ps.any (fun pat => sweepDeletes cutoff pat f)

theorem length_filter_split (l : List TempFile) (A B : TempFile → Bool) :
    (l.filter A).length + (l.filter (fun f => !A f && B f)).length
      = (l.filter (fun f => A f || B f)).length := by
  induction l with
  | nil => rfl
  | cons f t ih =>
    cases hA : A f <;> cases hB : B f <;>
      simp [hA, hB, List.filter_cons] <;> omega

theorem foldl_sweepPattern (cutoff : Int) (ps : List (String → Bool)) :
    ∀ st : List TempFile × Nat,
      ps.foldl (fun s pat => sweepPattern cutoff pat s) st =
        (st.1.filter (fun f => !anyDeletes cutoff ps f),
          st.2 + (st.1.filter (fun f => anyDeletes cutoff ps f)).length) := by
  induction ps with
  | nil =>
    intro st
    simp [anyDeletes]
  | cons p ps ih =>
    intro st
    rw [List.foldl_cons, ih]
    unfold sweepPattern
    simp only [Prod.mk.injEq]
    constructor
    · rw [List.filter_filter]
      refine List.filter_congr (fun f _ => ?_)
      cases h1 : sweepDeletes cutoff p f <;> cases h2 : anyDeletes cutoff ps f <;>
        simp [anyDeletes, List.any_cons, h1, h2] at * <;> simp_all
    · rw [List.filter_filter, Nat.add_assoc]
      congr 1
      have hsplit := length_filter_split st.1 (fun f => sweepDeletes cutoff p f)
        (fun f => anyDeletes cutoff ps f)
      calc (st.1.filter (fun f => sweepDeletes cutoff p f)).length +
            (st.1.filter (fun f => anyDeletes cutoff ps f && !sweepDeletes cutoff p f)).length
          = (st.1.filter (fun f => sweepDeletes cutoff p f)).length +
            (st.1.filter (fun f => !sweepDeletes cutoff p f && anyDeletes cutoff ps f)).length := by
            congr 1
            refine congrArg List.length (List.filter_congr (fun f _ => ?_))
            cases sweepDeletes cutoff p f <;> cases anyDeletes cutoff ps f <;> rfl
        _ = (st.1.filter (fun f => sweepDeletes cutoff p f || anyDeletes cutoff ps f)).length :=
            hsplit
        _ = (st.1.filter (fun f => anyDeletes cutoff (p :: ps) f)).length := by
            refine congrArg List.length (List.filter_congr (fun f _ => ?_))
            simp [anyDeletes, List.any_cons]

/-! ## Claim C9 -/

/-- Counterexample to C9 as stated.  A regular file `tmpabc` aged 2000
seconds matches the `tmp*` pattern and is older than the claimed
1800-second default threshold, yet the sweep leaves it untouched and
counts nothing: the code's cutoff is a hardcoded 3600 seconds
(tasks.py line 645), and no configuration can lower it. -/
theorem cleanup_age_threshold_cex :
    ((10000 : Int) - 8000 > 1800) ∧ globTmpStar "tmpabc" = true ∧
      TempFile.isFile ⟨"tmpabc", 8000, true⟩ = true ∧
      cleanup_temp_files 10000 [⟨"tmpabc", 8000, true⟩] = ([⟨"tmpabc", 8000, true⟩], 0) :=
  ⟨by decide, rfl, rfl, rfl⟩

/-- C9 (amended): `cleanup_temp_files` deletes a temp file if and only if
its name matches one of the four known patterns, it is a regular file, and
its mtime is older than the FIXED 3600-second threshold (the 1800-second
configurable default the claim describes does not exist in the code);
every younger or non-matching file is left untouched, and the returned
count is exactly the number of deleted files. -/
theorem cleanup_deletes_iff (now : Int) (files : List TempFile) :
    cleanup_temp_files now files =
      (files.filter (fun f => !cleanupDeletes now f),
        (files.filter (fun f => cleanupDeletes now f)).length) := by
  unfold cleanup_temp_files
  rw [foldl_sweepPattern (now - 3600) tempPatterns (files, 0)]
  have hpt : ∀ f : TempFile, anyDeletes (now - 3600) tempPatterns f = cleanupDeletes now f := by
    intro f
    simp only [anyDeletes, tempPatterns, List.any_cons, List.any_nil, sweepDeletes,
      cleanupDeletes, cleanupMatches]
    cases globTmpStar f.name <;> cases globStarSub "audio" f.name <;>
      cases globStarSub "waveform" f.name <;> cases globStarSub "mixed" f.name <;>
      cases f.isFile <;> cases decide (f.mtime < now - 3600) <;> rfl
  simp only [Prod.mk.injEq]
  exact ⟨List.filter_congr (fun f _ => by rw [hpt f]),
    by rw [Nat.zero_add]; exact congrArg List.length (List.filter_congr (fun f _ => hpt f))⟩

end WaveFlow
